import Mathlib

/-!
Verification of the task-planner state-graph engine and the planner graph
built in `src/graph.py`.

The repository ships `src/graph.py` (graph construction, the helper node
functions `_finalize_plan`, `_handle_errors`, `_monitor_state`, the parallel
branch helpers, and the routers `_check_iteration_limit`,
`_advanced_feedback_logic`, `_advanced_refinement_logic`,
`_error_recovery_logic`, `_should_do_parallel_analysis`,
`_distribute_parallel_tasks`, and `get_execution_trace`), together with its
tests.  The state helpers (`src/state.py`), the domain node functions
(`src/nodes.py`), the configuration schema (`src/schemas.py`) and the graph
execution engine itself are not part of the shipped sources; where a claim
depends on them they are modelled from the specification (each such
definition carries a doc comment starting with `Modelled from the spec:`).

States are Python `TypedDict` values; we embed them as a structure whose
optional fields model possibly-absent keys, and partial updates (the values
node functions return) as a structure of `Option`-valued fields where `none`
means "key absent from the update".  The `{**s, **p}` dictionary-merge idiom
is additionally embedded generically over association lists for the
merge-semantics claim.
-/

/-! ## Configuration and domain schemas (`src/schemas.py`, not in src/) -/

/-- Modelled from the spec: `PlannerConfig` from `src/schemas.py` is not under
`src/`; the spec names its tunables (`max_iterations`,
`auto_approve_simple_plans`, `complexity_threshold`,
`include_detailed_timeline`) and `tests/test_schemas.py` pins the defaults
(3, true, 7.0, true).  Scores and thresholds are Python floats; they are
embedded as rationals. -/
structure PlannerConfig where
  max_iterations : Nat := 3
  auto_approve_simple_plans : Bool := true
  complexity_threshold : Rat := 7
  include_detailed_timeline : Bool := true
deriving DecidableEq

/-- Modelled from the spec: the analyzed-goal mapping produced by the
goal-analysis node (`src/nodes.py`, not under `src/`); the tests read its
`goal_type` and `complexity_level` keys. -/
structure AnalyzedGoal where
  goal_type : String := "general"
  complexity_level : String := "medium"
  original_goal : String := ""
deriving DecidableEq

/-- Modelled from the spec: the `Task` model of `src/schemas.py` (not under
`src/`); only identity and title are relevant to the claims. -/
structure PlanTask where
  id : String := ""
  title : String := ""
deriving DecidableEq

/-- Modelled from the spec: the `TaskAnalysis` model of `src/schemas.py`
(not under `src/`); the routers in `src/graph.py` read only
`complexity_score`. -/
structure TaskAnalysis where
  complexity_score : Rat := 0
deriving DecidableEq

/-- Modelled from the spec: the `ExecutionPlan` model of `src/schemas.py`
(not under `src/`); `src/graph.py` reads its presence and
`estimated_total_hours`. -/
structure ExecutionPlan where
  plan_id : String := ""
  title : String := ""
  estimated_total_hours : Rat := 0
deriving DecidableEq

/-- Modelled from the spec: the `PlanFeedback` model of `src/schemas.py`
(not under `src/`); `src/graph.py` reads `comments`, `rating` and
`approval_status`. -/
structure PlanFeedback where
  feedback_type : String := ""
  rating : Nat := 3
  comments : String := ""
  suggested_changes : List String := []
  approval_status : Bool := false
deriving DecidableEq

/-! ## The state container -/

/-- The planner state: the `PlannerState` TypedDict threaded through the
graph.  Fields read with `state.get(key, default)` in the sources are
embedded with that default folded in; fields whose absence is observable
(`current_phase`, `config`, the schema-valued fields) are `Option`-valued. -/
structure PlannerState where
  user_goal : String := ""
  analyzed_goal : Option AnalyzedGoal := none
  subtasks : List PlanTask := []
  task_analysis : Option TaskAnalysis := none
  execution_plan : Option ExecutionPlan := none
  plan_history : List ExecutionPlan := []
  feedback : Option PlanFeedback := none
  feedback_history : List PlanFeedback := []
  iteration_count : Nat := 0
  is_plan_approved : Bool := false
  current_phase : Option String := none
  processing_notes : List String := []
  errors : List String := []
  warnings : List String := []
  session_id : String := ""
  config : Option PlannerConfig := none
  last_updated : Option String := none
  identified_risks : List String := []
  available_resources : List String := []
  task_type : Option String := none
deriving DecidableEq

/-- A partial state update: the mapping a node function returns.  A `none`
field means the key is absent from the update (so merging leaves the state's
value untouched); `some v` means the key is present with value `v`. -/
structure Update where
  user_goal : Option String := none
  analyzed_goal : Option AnalyzedGoal := none
  subtasks : Option (List PlanTask) := none
  task_analysis : Option TaskAnalysis := none
  execution_plan : Option ExecutionPlan := none
  plan_history : Option (List ExecutionPlan) := none
  feedback : Option PlanFeedback := none
  feedback_history : Option (List PlanFeedback) := none
  iteration_count : Option Nat := none
  is_plan_approved : Option Bool := none
  current_phase : Option String := none
  processing_notes : Option (List String) := none
  errors : Option (List String) := none
  warnings : Option (List String) := none
  session_id : Option String := none
  config : Option PlannerConfig := none
  last_updated : Option String := none
  identified_risks : Option (List String) := none
  available_resources : Option (List String) := none
  task_type : Option String := none
deriving DecidableEq

/-- Override helper for plainly-typed fields: the update's value when the key
is present, the state's value otherwise. -/
def ovr {α : Type} (u : Option α) (v : α) : α := u.getD v

/-- Override helper for `Option`-typed state fields. -/
def ovrO {α : Type} (u : Option α) (v : Option α) : Option α :=
  match u with
  | some w => some w
  | none => v

/-- The `{**state, **partial}` merge on planner states: every key present in
the update takes the update's value, every other key keeps the state's
value. -/
def mergeSt (s : PlannerState) (u : Update) : PlannerState :=
  { user_goal := ovr u.user_goal s.user_goal
    analyzed_goal := ovrO u.analyzed_goal s.analyzed_goal
    subtasks := ovr u.subtasks s.subtasks
    task_analysis := ovrO u.task_analysis s.task_analysis
    execution_plan := ovrO u.execution_plan s.execution_plan
    plan_history := ovr u.plan_history s.plan_history
    feedback := ovrO u.feedback s.feedback
    feedback_history := ovr u.feedback_history s.feedback_history
    iteration_count := ovr u.iteration_count s.iteration_count
    is_plan_approved := ovr u.is_plan_approved s.is_plan_approved
    current_phase := ovrO u.current_phase s.current_phase
    processing_notes := ovr u.processing_notes s.processing_notes
    errors := ovr u.errors s.errors
    warnings := ovr u.warnings s.warnings
    session_id := ovr u.session_id s.session_id
    config := ovrO u.config s.config
    last_updated := ovrO u.last_updated s.last_updated
    identified_risks := ovr u.identified_risks s.identified_risks
    available_resources := ovr u.available_resources s.available_resources
    task_type := ovrO u.task_type s.task_type }

/-! ## Generic dictionary merge (`{**s, **p}` over association lists) -/

/-- Association-list lookup, Python `dict` access order: the first binding of
the key wins. -/
def alookup {α : Type} : List (String × α) → String → Option α
  | [], _ => none
  | kv :: rest, k => if kv.1 = k then some kv.2 else alookup rest k

/-- The `{**s, **p}` dictionary merge: the keys of `s` in order with their
values overridden by `p` where present, then the keys of `p` absent from `s`
in their own order. -/
def dictMerge {α : Type} (s p : List (String × α)) : List (String × α) :=
  s.map (fun kv =>
    match alookup p kv.1 with
    | some v => (kv.1, v)
    | none => kv)
  ++ p.filter (fun kv => (alookup s kv.1).isNone)

/-! ## State helpers (`src/state.py`, not in src/) -/

/-- Modelled from the spec: `create_initial_state` from `src/state.py` is not
under `src/`.  Spec section 3: the State is created once at run start from the
entry payload and optional configuration; `tests/conftest.py` and
`tests/test_nodes.py` pin the required fields (`user_goal`, empty collections,
`iteration_count` 0, unapproved, a session id). -/
def create_initial_state (goal : String) (cfg : Option PlannerConfig) : PlannerState :=
  { user_goal := goal
    iteration_count := 0
    is_plan_approved := false
    current_phase := some "initialized"
    processing_notes := []
    errors := []
    warnings := []
    session_id := "session_0"
    config := cfg }

/-- Modelled from the spec: `update_state_metadata` from `src/state.py` is not
under `src/`.  It returns a partial update carrying the new phase marker and a
last-updated stamp (`tests/test_nodes.py` `test_state_consistency` observes
`last_updated` appearing after a node's update is merged); the stamp value is
abstracted as the `now` parameter. -/
def update_state_metadata (now : String) (_state : PlannerState) (phase : String) : Update :=
  { current_phase := some phase
    last_updated := some now }

/-- Modelled from the spec: `add_processing_note` from `src/state.py` is not
under `src/`.  It returns a partial update whose `processing_notes` value is
the state's notes with the new note appended (spec section 3: updates are
additive merges; the trace is an ordered log of processing notes). -/
def add_processing_note (s : PlannerState) (note : String) : Update :=
  { processing_notes := some (s.processing_notes ++ [note]) }

/-! ## Domain node functions and routers (`src/nodes.py`, not in src/) -/

/-- Modelled from the spec: `analyze_goal` from `src/nodes.py` is not under
`src/`.  `tests/test_nodes.py` pins the contract: an empty goal yields an
update recording the error 用戶目標不能為空; otherwise the update carries the
analyzed goal, the phase `goal_analysis_complete`, and a processing note. -/
def analyze_goal (now : String) (s : PlannerState) : Update :=
  if s.user_goal = "" then
    { errors := some (s.errors ++ ["用戶目標不能為空"]) }
  else
    { analyzed_goal := some { goal_type := "general", complexity_level := "medium",
                              original_goal := s.user_goal }
      current_phase := some "goal_analysis_complete"
      last_updated := some now
      processing_notes := some (s.processing_notes ++ ["成功分析目標"]) }

/-- Modelled from the spec: `breakdown_tasks` from `src/nodes.py` is not under
`src/`.  Without a prior goal analysis it records 需要先分析目標; otherwise it
produces a non-empty subtask list and the phase `task_breakdown_complete`. -/
def breakdown_tasks (now : String) (s : PlannerState) : Update :=
  match s.analyzed_goal with
  | none => { errors := some (s.errors ++ ["需要先分析目標"]) }
  | some g =>
      { subtasks := some [{ id := g.goal_type ++ "_01", title := "準備階段" },
                          { id := g.goal_type ++ "_02", title := "執行階段" }]
        current_phase := some "task_breakdown_complete"
        last_updated := some now
        processing_notes := some (s.processing_notes ++ ["生成任務"]) }

/-- Modelled from the spec: `evaluate_tasks` from `src/nodes.py` is not under
`src/`.  An empty task list records 沒有可評估的任務; otherwise the update
carries a task analysis. -/
def evaluate_tasks (now : String) (s : PlannerState) : Update :=
  if s.subtasks = [] then
    { errors := some (s.errors ++ ["沒有可評估的任務"]) }
  else
    { task_analysis := some { complexity_score := 5 }
      current_phase := some "task_evaluation_complete"
      last_updated := some now
      processing_notes := some (s.processing_notes ++ ["完成任務評估"]) }

/-- Modelled from the spec: `create_plan` from `src/nodes.py` is not under
`src/`.  Missing prerequisites record 需要完成任務分解和評估; otherwise the
update carries an execution plan, appends it to the plan history, and sets the
phase `plan_creation_complete`. -/
def create_plan (now : String) (s : PlannerState) : Update :=
  match s.task_analysis with
  | none => { errors := some (s.errors ++ ["需要完成任務分解和評估"]) }
  | some _ =>
      if s.subtasks = [] then
        { errors := some (s.errors ++ ["需要完成任務分解和評估"]) }
      else
        let plan : ExecutionPlan :=
          { plan_id := "plan_001", title := s.user_goal, estimated_total_hours := 10 }
        { execution_plan := some plan
          plan_history := some (s.plan_history ++ [plan])
          current_phase := some "plan_creation_complete"
          last_updated := some now
          processing_notes := some (s.processing_notes ++ ["創建執行計劃"]) }

/-- Modelled from the spec: `get_feedback` from `src/nodes.py` is not under
`src/`.  The user feedback source (`simulate_user_feedback`, mocked in the
tests) is abstracted as the `sim` parameter; without a plan the node records
反饋收集失敗. -/
def get_feedback (sim : PlannerState → PlanFeedback) (now : String) (s : PlannerState) : Update :=
  match s.execution_plan with
  | none => { errors := some (s.errors ++ ["反饋收集失敗：沒有可反饋的計劃"]) }
  | some _ =>
      let fb := sim s
      { feedback := some fb
        feedback_history := some (s.feedback_history ++ [fb])
        current_phase := some "feedback_collected"
        last_updated := some now
        processing_notes := some (s.processing_notes ++ ["收集用戶反饋"]) }

/-- Modelled from the spec: `refine_plan` from `src/nodes.py` is not under
`src/`.  The refinement loop body increments the state's `iteration_count`
(spec section 3 invariant (c) and the iteration ceiling of section 4.5). -/
def refine_plan (now : String) (s : PlannerState) : Update :=
  { iteration_count := some (s.iteration_count + 1)
    current_phase := some "plan_refined"
    last_updated := some now
    processing_notes := some (s.processing_notes ++ ["優化計劃"]) }

/-- Modelled from the spec: the router `should_get_feedback` from
`src/nodes.py` is not under `src/`.  `tests/test_nodes.py` pins it: with
auto-approval enabled and a complexity score below the configured threshold it
returns `finalize`, otherwise `get_feedback`. -/
def should_get_feedback (s : PlannerState) : String :=
  match s.task_analysis with
  | some a =>
      if (s.config.getD {}).auto_approve_simple_plans = true ∧
          a.complexity_score < (s.config.getD {}).complexity_threshold then "finalize"
      else "get_feedback"
  | none => "get_feedback"

/-- Modelled from the spec: the router `should_refine_plan` from
`src/nodes.py` is not under `src/`.  `tests/test_nodes.py` pins it: approved
feedback finalizes; reaching the configured `max_iterations` finalizes;
otherwise the plan is refined again. -/
def should_refine_plan (s : PlannerState) : String :=
  match s.feedback with
  | none => "finalize"
  | some fb =>
      if fb.approval_status = true then "finalize"
      else if (s.config.getD {}).max_iterations ≤ s.iteration_count then "finalize"
      else "refine_plan"

/-- Modelled from the spec: the router `has_errors` from `src/nodes.py` is not
under `src/`.  `tests/test_nodes.py` pins it: a state with errors routes to
`error_handler`, otherwise `continue`. -/
def has_errors (s : PlannerState) : String :=
  if s.errors = [] then "continue" else "error_handler"

/-! ## Helper node functions of `src/graph.py` (translated from source) -/

/-- The final notes built by `_finalize_plan` (`src/graph.py` lines 301-310):
a completion note, the iteration total, the task count, and — when an
execution plan is present — its estimated total hours. -/
def _finalize_plan_notes (s : PlannerState) : List String :=
  ["計劃最終化完成",
   "總共進行了 " ++ toString s.iteration_count ++ " 次迭代",
   "最終計劃包含 " ++ toString s.subtasks.length ++ " 個任務"]
  ++ (match s.execution_plan with
      | some p => ["預估總時間：" ++ toString p.estimated_total_hours ++ " 小時"]
      | none => [])

/-- `_finalize_plan` (`src/graph.py` lines 284-316): spreads
`update_state_metadata(state, "completed")`, appends the final notes to the
state's processing notes, and sets `is_plan_approved` to `True`. -/
def _finalize_plan (now : String) (s : PlannerState) : Update :=
  { update_state_metadata now s "completed" with
    processing_notes := some (s.processing_notes ++ _finalize_plan_notes s)
    is_plan_approved := some true }

/-- `_handle_errors` (`src/graph.py` lines 319-341): spreads
`update_state_metadata(state, "error_handled")` and appends an error summary
to the processing notes. -/
def _handle_errors (now : String) (s : PlannerState) : Update :=
  { update_state_metadata now s "error_handled" with
    processing_notes := some (s.processing_notes ++
      ["處理了 " ++ toString s.errors.length ++ " 個錯誤",
       "錯誤處理完成，流程終止"]) }

/-- `_monitor_state` (`src/graph.py` lines 344-371): spreads
`update_state_metadata(state, "monitored")` and appends monitoring notes,
with an extra note when the iteration count has reached the configured
maximum. -/
def _monitor_state (now : String) (s : PlannerState) : Update :=
  { update_state_metadata now s "monitored" with
    processing_notes := some (s.processing_notes ++
      (["狀態監控：第 " ++ toString s.iteration_count ++ " 次迭代",
        "最大允許迭代：" ++ toString (s.config.getD {}).max_iterations] ++
       (if (s.config.getD {}).max_iterations ≤ s.iteration_count then
          ["達到最大迭代次數，準備強制結束"]
        else []))) }

/-- `_parallel_analysis` (`src/graph.py` lines 376-391): spreads
`add_processing_note` and sets the phase `parallel_analysis`. -/
def _parallel_analysis (s : PlannerState) : Update :=
  { add_processing_note s
      ("準備對 " ++ toString s.subtasks.length ++ " 個任務進行並行分析") with
    current_phase := some "parallel_analysis" }

/-- `_assess_risks` (`src/graph.py` lines 394-403): spreads
`add_processing_note` and sets `identified_risks` to the three fixed risk
categories. -/
def _assess_risks (s : PlannerState) : Update :=
  { add_processing_note s "完成風險評估，識別 3 類風險" with
    identified_risks := some ["時間風險", "技能風險", "資源風險"] }

/-- `_check_resources` (`src/graph.py` lines 406-415): spreads
`add_processing_note` and sets `available_resources` to the three fixed
resource categories. -/
def _check_resources (s : PlannerState) : Update :=
  { add_processing_note s "完成資源檢查，評估 3 類資源" with
    available_resources := some ["時間資源", "學習資源", "工具資源"] }

/-! ## Routers of `src/graph.py` (translated from source) -/

/-- `_should_do_parallel_analysis` (`src/graph.py` lines 420-428): more than
five subtasks selects the parallel branch. -/
def _should_do_parallel_analysis (s : PlannerState) : String :=
  if 5 < s.subtasks.length then "parallel" else "sequential"

/-- `_advanced_feedback_logic` (`src/graph.py` lines 439-455): auto-approve a
simple plan (score below 5.0 with auto-approval on), demand revision above
8.0, otherwise collect feedback. -/
def _advanced_feedback_logic (s : PlannerState) : String :=
  if ((s.config.getD {}).auto_approve_simple_plans &&
      (match s.task_analysis with
       | some a => decide (a.complexity_score < 5)
       | none => false)) = true then "auto_approve"
  else if (match s.task_analysis with
           | some a => decide (8 < a.complexity_score)
           | none => false) = true then "need_revision"
  else "get_feedback"

/-- Substring containment, the Python `needle in haystack` test on strings. -/
def containsSub (haystack needle : String) : Bool :=
  (haystack.splitOn needle).length ≠ 1

/-- `_advanced_refinement_logic` (`src/graph.py` lines 458-475): no feedback
finalizes; a demand to redesign (重新設計 in the comments) or a rating below 2
restarts; approved feedback finalizes; otherwise refine. -/
def _advanced_refinement_logic (s : PlannerState) : String :=
  match s.feedback with
  | none => "finalize"
  | some fb =>
      if containsSub fb.comments "重新設計" = true ∨ fb.rating < 2 then "restart"
      else if fb.approval_status = true then "finalize"
      else "refine"

/-- `_check_iteration_limit` (`src/graph.py` lines 478-489): errors route to
`error`, an iteration count at or above the configured maximum to
`force_finalize`, otherwise `continue`. -/
def _check_iteration_limit (s : PlannerState) : String :=
  if s.errors ≠ [] then "error"
  else if (s.config.getD {}).max_iterations ≤ s.iteration_count then "force_finalize"
  else "continue"

/-- `_error_recovery_logic` (`src/graph.py` lines 492-507): few errors and few
iterations retry; an existing plan allows partial recovery; otherwise
terminate. -/
def _error_recovery_logic (s : PlannerState) : String :=
  if s.errors.length < 3 ∧ s.iteration_count < 2 then "retry"
  else match s.execution_plan with
       | some _ => "partial_recovery"
       | none => "terminate"

/-- `get_execution_trace` (`src/graph.py` lines 580-598): the final phase
(defaulting to `unknown` when the key is absent) followed by one line per
processing note, in stored order.  The function only reads the state. -/
def get_execution_trace (result : PlannerState) : List String :=
  ("最終階段: " ++ result.current_phase.getD "unknown")
    :: result.processing_notes.map (fun note => "- " ++ note)

/-! ## The graph execution engine (spec sections 4.3-4.6) -/

/-- Modelled from the spec: the engine's node-function contract (section 4.5
step b).  The engine is not in the shipped sources; a node either returns a
partial update or faults, and a fault is caught by the executor. -/
inductive NodeResult where
  | ok (u : Update)
  | fault (msg : String)

/-- A fan-out dispatch, `langgraph.types.Send`: a branch node name together
with the derived payload it runs against. -/
structure Send where
  node : String
  arg : Update
deriving DecidableEq

/-- Modelled from the spec: the edge table of section 4.3 — an unconditional
edge, a conditional edge (router plus label map), or a fan-out edge (router
returning dispatches plus the designated join node of sections 4.5(d) and
4.6). -/
inductive EdgeDef where
  | uncond (target : String)
  | cond (router : PlannerState → String) (labelMap : List (String × String))
  | fanout (router : PlannerState → List Send) (join : String)

/-- The terminal marker (`END` in `src/graph.py`). -/
def endMark : String := "__end__"

/-- Modelled from the spec: a compiled graph (section 4.4) — node registry,
edge table, entry point, the designated error path of sections 4.5(a)/(d),
and the iteration ceiling of section 4.5(a). -/
structure Graph where
  nodes : List (String × (PlannerState → NodeResult))
  edges : List (String × EdgeDef)
  entry : String
  errorPath : Option String
  ceiling : Nat

/-- Node-registry resolution (spec section 4.2 `resolve`). -/
def resolve (g : Graph) (name : String) : Option (PlannerState → NodeResult) :=
  alookup g.nodes name

/-- Edge-table resolution for a source node. -/
def outEdge (g : Graph) (name : String) : Option EdgeDef :=
  alookup g.edges name

/-- Modelled from the spec: the partial-failure policy of section 4.5(b) —
a fault is converted into an errors-recording partial update (additive per
the section 3 invariant that keys are never removed). -/
def errUpd (s : PlannerState) (msg : String) : Update :=
  { errors := some (s.errors ++ [msg]) }

/-- Invoke a node function and merge its partial update (or its recorded
fault) into the state: steps (b) and (c) of spec section 4.5. -/
def applyNode (fn : PlannerState → NodeResult) (s : PlannerState) : PlannerState :=
  mergeSt s (match fn s with
             | .ok u => u
             | .fault msg => errUpd s msg)

/-- Modelled from the spec: one branch of a fan-out dispatch (section 4.5(d)):
the branch node runs against the shared state with the derived payload
overridden, all accumulated fields preserved; a fault is recorded. -/
def branchOut (g : Graph) (s : PlannerState) (sd : Send) : Update :=
  match resolve g sd.node with
  | some fn =>
      match fn (mergeSt s sd.arg) with
      | .ok u => u
      | .fault msg => errUpd (mergeSt s sd.arg) msg
  | none => errUpd s ("未註冊的節點: " ++ sd.node)

/-- Modelled from the spec: the fan-out dispatcher (section 4.6): every
branch output is merged back into the shared state in router-list order, the
later branch winning on key conflicts. -/
def fanoutExec (g : Graph) (sends : List Send) (s : PlannerState) : PlannerState :=
  (sends.map (branchOut g s)).foldl mergeSt s

/-- The outcome of a run: the terminal tags of spec section 4.5 (success or
error termination carry the final state and the ordered list of visited
nodes; a hard failure carries the violated invariant), plus the fuel marker
`outOfFuel`, proven unreachable at the fuel budget `run` uses. -/
inductive RunResult where
  | success (s : PlannerState) (visited : List String)
  | errorTerm (s : PlannerState) (visited : List String)
  | fatal (msg : String) (visited : List String)
  | outOfFuel

/-- Modelled from the spec: one executor pass over the current node (steps
(b)-(e) of section 4.5): resolve and invoke the node (faults recorded, never
propagated), merge the update, resolve the outgoing edge (an unmapped router
label records a `RoutingError` and takes the declared error path, else
terminates with an error; a missing edge takes the declared error path, else
hard-fails), and continue at the next node. -/
def runStep (g : Graph) (cont : String → PlannerState → Nat → Bool → List String → RunResult)
    (current : String) (s : PlannerState) (iter : Nat) (flag : Bool)
    (visited : List String) : RunResult :=
  match resolve g current with
  | none => .fatal ("未註冊的節點: " ++ current) (visited ++ [current])
  | some fn =>
      match outEdge g current with
      | none =>
          match g.errorPath with
          | some e => cont e (mergeSt (applyNode fn s)
              (errUpd (applyNode fn s) ("無出邊的節點: " ++ current)))
              (iter + 1) flag (visited ++ [current])
          | none => .fatal ("無出邊的節點: " ++ current) (visited ++ [current])
      | some (.uncond t) => cont t (applyNode fn s) (iter + 1) flag (visited ++ [current])
      | some (.cond router labelMap) =>
          match alookup labelMap (router (applyNode fn s)) with
          | some t => cont t (applyNode fn s) (iter + 1) flag (visited ++ [current])
          | none =>
              match g.errorPath with
              | some e => cont e (mergeSt (applyNode fn s)
                  (errUpd (applyNode fn s) ("RoutingError: " ++ router (applyNode fn s))))
                  (iter + 1) flag (visited ++ [current])
              | none => .errorTerm (mergeSt (applyNode fn s)
                  (errUpd (applyNode fn s) ("RoutingError: " ++ router (applyNode fn s))))
                  (visited ++ [current])
      | some (.fanout router join) =>
          cont join (fanoutExec g (router (applyNode fn s)) (applyNode fn s))
            (iter + 1) flag
            ((visited ++ [current]) ++ (router (applyNode fn s)).map (fun sd => sd.node))

/-- Modelled from the spec: the executor loop of section 4.5.  Fuel bounds the
recursion; `iter` counts completed passes; once `iter` exceeds the ceiling the
run is redirected to the declared error path at most once (`flag` records the
redirect) and otherwise hard-fails with the iteration-limit error — the spec
demands that no run execute indefinitely regardless of router behavior, so a
second ceiling hit is fatal rather than redirected again. -/
def limitStep (g : Graph)
    (next : String → PlannerState → Nat → Bool → List String → RunResult)
    (s : PlannerState) (iter : Nat) (flag : Bool) (visited : List String) : RunResult :=
  match flag, g.errorPath with
  | true, _ => .fatal "IterationLimitExceeded" visited
  | false, none => .fatal "IterationLimitExceeded" visited
  | false, some e => runStep g next e s iter true visited

/-- Modelled from the spec: the executor loop proper of section 4.5, bounded
by fuel; `iter` counts completed passes and the ceiling check of step (a)
runs before each pass. -/
def runAux (g : Graph) : Nat → String → PlannerState → Nat → Bool → List String → RunResult
  | 0, _, _, _, _, _ => .outOfFuel
  | fuel + 1, current, s, iter, flag, visited =>
      if current = endMark then .success s visited
      else if g.ceiling < iter then limitStep g (runAux g fuel) s iter flag visited
      else runStep g (runAux g fuel) current s iter flag visited

/-- Modelled from the spec: `run` of section 4.5 — execute the compiled graph
from its entry on the initial state.  The fuel budget `ceiling + 3` derives
from the iteration ceiling: `ceiling + 1` ordinary passes, one redirected
error-path pass, one terminal check. -/
def run (g : Graph) (s : PlannerState) : RunResult :=
  runAux g (g.ceiling + 3) g.entry s 0 false []

/-! ## The planner graphs of `src/graph.py` -/

/-- `_distribute_parallel_tasks` (`src/graph.py` lines 431-436): the fan-out
router — for every state, a dispatch to `risk_assessment` with the risk
payload followed by a dispatch to `resource_check` with the resource payload,
in that fixed order. -/
def _distribute_parallel_tasks (_s : PlannerState) : List Send :=
  [{ node := "risk_assessment", arg := { task_type := some "risk" } },
   { node := "resource_check", arg := { task_type := some "resource" } }]

/-- The node registry of the standard planner graph (`src/graph.py` lines
45-75).  The feedback source `sim` and the timestamp `now` abstract the
external collaborators of the domain nodes. -/
def plannerNodes (sim : PlannerState → PlanFeedback) (now : String) :
    List (String × (PlannerState → NodeResult)) :=
  [("analyze_goal", fun s => .ok (analyze_goal now s)),
   ("breakdown_tasks", fun s => .ok (breakdown_tasks now s)),
   ("evaluate_tasks", fun s => .ok (evaluate_tasks now s)),
   ("create_plan", fun s => .ok (create_plan now s)),
   ("get_feedback", fun s => .ok (get_feedback sim now s)),
   ("refine_plan", fun s => .ok (refine_plan now s)),
   ("finalize", fun s => .ok (_finalize_plan now s)),
   ("error_handler", fun s => .ok (_handle_errors now s))]

/-- The label map of the conditional edge out of `create_plan`
(`src/graph.py` lines 96-103). -/
def should_get_feedback_map : List (String × String) :=
  [("get_feedback", "get_feedback"), ("finalize", "finalize")]

/-- The label map of the conditional edge out of `get_feedback`
(`src/graph.py` lines 106-113). -/
def should_refine_plan_map : List (String × String) :=
  [("refine_plan", "refine_plan"), ("finalize", "finalize")]

/-- The label map of the loop edge out of `refine_plan` (`src/graph.py`
lines 116-123): the label `refine_plan` continues the loop at
`get_feedback`. -/
def refine_loop_map : List (String × String) :=
  [("refine_plan", "get_feedback"), ("finalize", "finalize")]

/-- `create_planner_graph` (`src/graph.py` lines 29-137) with the two routers
as parameters: the linear phase, the feedback branch, the refinement loop,
and the terminal edges, compiled with the engine's default iteration ceiling
and `error_handler` as the declared error path. -/
def create_planner_graph_r (r1 r2 : PlannerState → String)
    (sim : PlannerState → PlanFeedback) (now : String) : Graph :=
  { nodes := plannerNodes sim now
    edges := [("analyze_goal", .uncond "breakdown_tasks"),
              ("breakdown_tasks", .uncond "evaluate_tasks"),
              ("evaluate_tasks", .uncond "create_plan"),
              ("create_plan", .cond r1 should_get_feedback_map),
              ("get_feedback", .cond r2 should_refine_plan_map),
              ("refine_plan", .cond r2 refine_loop_map),
              ("finalize", .uncond endMark),
              ("error_handler", .uncond endMark)]
    entry := "analyze_goal"
    errorPath := some "error_handler"
    ceiling := 25 }

/-- `create_planner_graph` with its actual routers `should_get_feedback` and
`should_refine_plan`. -/
def create_planner_graph (sim : PlannerState → PlanFeedback) (now : String) : Graph :=
  create_planner_graph_r should_get_feedback should_refine_plan sim now

/-- The label map registered with `_should_do_parallel_analysis`
(`src/graph.py` lines 208-215). -/
def parallel_map : List (String × String) :=
  [("parallel", "parallel_analysis"), ("sequential", "evaluate_tasks")]

/-- The label map registered with `_advanced_feedback_logic`
(`src/graph.py` lines 232-240). -/
def advanced_feedback_map : List (String × String) :=
  [("auto_approve", "finalize"), ("get_feedback", "get_feedback"),
   ("need_revision", "refine_plan")]

/-- The label map registered with `_advanced_refinement_logic`
(`src/graph.py` lines 243-251). -/
def advanced_refinement_map : List (String × String) :=
  [("refine", "refine_plan"), ("finalize", "finalize"),
   ("restart", "breakdown_tasks")]

/-- The label map registered with `_check_iteration_limit`
(`src/graph.py` lines 255-263). -/
def check_iteration_limit_map : List (String × String) :=
  [("continue", "get_feedback"), ("force_finalize", "finalize"),
   ("error", "error_handler")]

/-- The label map registered with `_error_recovery_logic`
(`src/graph.py` lines 266-274); the `terminate` label maps to `END`. -/
def error_recovery_map : List (String × String) :=
  [("retry", "analyze_goal"), ("partial_recovery", "create_plan"),
   ("terminate", endMark)]

/-- `create_advanced_planner_graph` (`src/graph.py` lines 172-279): the
standard nodes plus the monitor and parallel branch nodes; the fan-out edge
out of `parallel_analysis` joins at `evaluate_tasks` (the node both branch
edges converge to, fixed as the designated join per spec section 4.5(d)). -/
def create_advanced_planner_graph (sim : PlannerState → PlanFeedback) (now : String) : Graph :=
  { nodes := plannerNodes sim now ++
      [("state_monitor", fun s => .ok (_monitor_state now s)),
       ("parallel_analysis", fun s => .ok (_parallel_analysis s)),
       ("risk_assessment", fun s => .ok (_assess_risks s)),
       ("resource_check", fun s => .ok (_check_resources s))]
    edges := [("analyze_goal", .uncond "breakdown_tasks"),
              ("breakdown_tasks", .cond _should_do_parallel_analysis parallel_map),
              ("parallel_analysis", .fanout _distribute_parallel_tasks "evaluate_tasks"),
              ("risk_assessment", .uncond "evaluate_tasks"),
              ("resource_check", .uncond "evaluate_tasks"),
              ("evaluate_tasks", .uncond "create_plan"),
              ("create_plan", .cond _advanced_feedback_logic advanced_feedback_map),
              ("get_feedback", .cond _advanced_refinement_logic advanced_refinement_map),
              ("refine_plan", .uncond "state_monitor"),
              ("state_monitor", .cond _check_iteration_limit check_iteration_limit_map),
              ("error_handler", .cond _error_recovery_logic error_recovery_map),
              ("finalize", .uncond endMark)]
    entry := "analyze_goal"
    errorPath := some "error_handler"
    ceiling := 25 }

/-! ## Scenario graphs for the partial-failure policy -/

/-- A node function that faults on every input (a raising node). -/
def faultingNode : PlannerState → NodeResult :=
  fun _ => .fault "節點故障"

/-- Scenario graph with a declared error route: the faulting node `A` routes
on `has_errors` to `error_handler` (registered) or `B`, both of which reach
the terminal marker. -/
def error_route_graph : Graph :=
  { nodes := [("A", faultingNode),
              ("error_handler", fun s => .ok (_handle_errors "t" s)),
              ("B", fun _ => .ok {})]
    edges := [("A", .cond has_errors
                 [("error_handler", "error_handler"), ("continue", "B")]),
              ("error_handler", .uncond endMark),
              ("B", .uncond endMark)]
    entry := "A"
    errorPath := some "error_handler"
    ceiling := 10 }

/-- Scenario graph with no error-handling route declared: the faulting node
`A` routes on `has_errors`, but the error label is absent from the label map
and no error path is declared. -/
def no_error_route_graph : Graph :=
  { nodes := [("A", faultingNode),
              ("B", fun _ => .ok {})]
    edges := [("A", .cond has_errors [("continue", "B")]),
              ("B", .uncond endMark)]
    entry := "A"
    errorPath := none
    ceiling := 10 }

/-! ## The graph compiler (spec section 4.4) -/

/-- Modelled from the spec: the mutable builder contents handed to `compile`
(section 4.4; the engine's builder is not in the shipped sources) — the node
registration sequence (a repeated name is a duplicate-registration defect),
the edge table as source-target pairs, and the entry point. -/
structure BuilderSpec where
  nodes : List String
  edges : List (String × String)
  entry : String

/-- Duplicate-node-name defects: one defect per name registered more than
once. -/
def duplicate_defects (ns : List String) : List String :=
  (ns.dedup.filter (fun n => 1 < ns.count n)).map
    (fun n => "duplicate node name: " ++ n)

/-- Entry-point defect: the entry must name a registered node. -/
def entry_defects (b : BuilderSpec) : List String :=
  if b.entry ∈ b.nodes then [] else ["entry not registered: " ++ b.entry]

/-- Dangling-edge defects: one defect per edge whose target is neither a
registered node nor the terminal marker. -/
def dangling_defects (b : BuilderSpec) : List String :=
  (b.edges.filter (fun e => decide (e.2 ≠ endMark ∧ e.2 ∉ b.nodes))).map
    (fun e => "edge target not registered: " ++ e.2)

/-- Modelled from the spec: the structural problems `compile` collects
(section 4.4: collect-all, not fail-fast). -/
def collect_defects (b : BuilderSpec) : List String :=
  duplicate_defects b.nodes ++ entry_defects b ++ dangling_defects b

/-- A validated graph produced by a successful compile. -/
structure CompiledGraph where
  spec : BuilderSpec

/-- Modelled from the spec: `compile` of section 4.4 — succeeds when no
structural problem is found, otherwise fails with a single
`GraphValidationError` value listing every problem found. -/
def compile_builder (b : BuilderSpec) : Except (List String) CompiledGraph :=
  if collect_defects b = [] then .ok { spec := b }
  else .error (collect_defects b)

/-- The iteration bound on a run outcome: any final state carried by the
outcome (success or error termination) has its iteration count within the
configured maximum. -/
def countOK (cfg : PlannerConfig) : RunResult → Prop
  | .success s _ => s.iteration_count ≤ cfg.max_iterations
  | .errorTerm s _ => s.iteration_count ≤ cfg.max_iterations
  | .fatal _ _ => True
  | .outOfFuel => True

/-! ## Basic merge lemmas -/

theorem ovr_none {α : Type} (v : α) : ovr none v = v := rfl

theorem ovr_some {α : Type} (u v : α) : ovr (some u) v = u := rfl

theorem ovrO_none {α : Type} (v : Option α) : ovrO none v = v := rfl

theorem ovrO_some {α : Type} (u : α) (v : Option α) : ovrO (some u) v = some u := rfl

@[simp]
theorem mergeSt_iteration_count (s : PlannerState) (u : Update) :
    (mergeSt s u).iteration_count = ovr u.iteration_count s.iteration_count := rfl

@[simp]
theorem mergeSt_config (s : PlannerState) (u : Update) :
    (mergeSt s u).config = ovrO u.config s.config := rfl

@[simp]
theorem mergeSt_errors (s : PlannerState) (u : Update) :
    (mergeSt s u).errors = ovr u.errors s.errors := rfl

@[simp]
theorem mergeSt_processing_notes (s : PlannerState) (u : Update) :
    (mergeSt s u).processing_notes = ovr u.processing_notes s.processing_notes := rfl

@[simp]
theorem mergeSt_is_plan_approved (s : PlannerState) (u : Update) :
    (mergeSt s u).is_plan_approved = ovr u.is_plan_approved s.is_plan_approved := rfl

@[simp]
theorem mergeSt_current_phase (s : PlannerState) (u : Update) :
    (mergeSt s u).current_phase = ovrO u.current_phase s.current_phase := rfl

@[simp]
theorem mergeSt_feedback (s : PlannerState) (u : Update) :
    (mergeSt s u).feedback = ovrO u.feedback s.feedback := rfl

@[simp]
theorem mergeSt_task_analysis (s : PlannerState) (u : Update) :
    (mergeSt s u).task_analysis = ovrO u.task_analysis s.task_analysis := rfl

@[simp]
theorem mergeSt_execution_plan (s : PlannerState) (u : Update) :
    (mergeSt s u).execution_plan = ovrO u.execution_plan s.execution_plan := rfl

@[simp]
theorem mergeSt_subtasks (s : PlannerState) (u : Update) :
    (mergeSt s u).subtasks = ovr u.subtasks s.subtasks := rfl

theorem applyNode_ok (f : PlannerState → Update) (s : PlannerState) :
    applyNode (fun x => NodeResult.ok (f x)) s = mergeSt s (f s) := rfl

theorem applyNode_fault (msg : String) (s : PlannerState) :
    applyNode (fun _ => NodeResult.fault msg) s = mergeSt s (errUpd s msg) := rfl

/-! ## Executor step lemmas -/

theorem runStep_resolve_uncond (g : Graph)
    (cont : String → PlannerState → Nat → Bool → List String → RunResult)
    (current : String) (s : PlannerState) (iter : Nat) (flag : Bool)
    (vis : List String) (fn : PlannerState → NodeResult) (t : String)
    (h1 : resolve g current = some fn)
    (h2 : outEdge g current = some (EdgeDef.uncond t)) :
    runStep g cont current s iter flag vis
      = cont t (applyNode fn s) (iter + 1) flag (vis ++ [current]) := by
  simp only [runStep, h1, h2]

theorem runStep_resolve_cond (g : Graph)
    (cont : String → PlannerState → Nat → Bool → List String → RunResult)
    (current : String) (s : PlannerState) (iter : Nat) (flag : Bool)
    (vis : List String) (fn : PlannerState → NodeResult)
    (router : PlannerState → String) (labelMap : List (String × String)) (t : String)
    (h1 : resolve g current = some fn)
    (h2 : outEdge g current = some (EdgeDef.cond router labelMap))
    (h3 : alookup labelMap (router (applyNode fn s)) = some t) :
    runStep g cont current s iter flag vis
      = cont t (applyNode fn s) (iter + 1) flag (vis ++ [current]) := by
  simp only [runStep, h1, h2, h3]

theorem runStep_cond_unmapped (g : Graph)
    (cont : String → PlannerState → Nat → Bool → List String → RunResult)
    (current : String) (s : PlannerState) (iter : Nat) (flag : Bool)
    (vis : List String) (fn : PlannerState → NodeResult)
    (router : PlannerState → String) (labelMap : List (String × String)) (e : String)
    (h1 : resolve g current = some fn)
    (h2 : outEdge g current = some (EdgeDef.cond router labelMap))
    (h3 : alookup labelMap (router (applyNode fn s)) = none)
    (h4 : g.errorPath = some e) :
    runStep g cont current s iter flag vis
      = cont e (mergeSt (applyNode fn s)
            (errUpd (applyNode fn s) ("RoutingError: " ++ router (applyNode fn s))))
          (iter + 1) flag (vis ++ [current]) := by
  simp only [runStep, h1, h2, h3, h4]

theorem runStep_cond_unmapped_noPath (g : Graph)
    (cont : String → PlannerState → Nat → Bool → List String → RunResult)
    (current : String) (s : PlannerState) (iter : Nat) (flag : Bool)
    (vis : List String) (fn : PlannerState → NodeResult)
    (router : PlannerState → String) (labelMap : List (String × String))
    (h1 : resolve g current = some fn)
    (h2 : outEdge g current = some (EdgeDef.cond router labelMap))
    (h3 : alookup labelMap (router (applyNode fn s)) = none)
    (h4 : g.errorPath = none) :
    runStep g cont current s iter flag vis
      = RunResult.errorTerm
          (mergeSt (applyNode fn s)
            (errUpd (applyNode fn s) ("RoutingError: " ++ router (applyNode fn s))))
          (vis ++ [current]) := by
  simp only [runStep, h1, h2, h3, h4]

theorem runStep_resolve_fanout (g : Graph)
    (cont : String → PlannerState → Nat → Bool → List String → RunResult)
    (current : String) (s : PlannerState) (iter : Nat) (flag : Bool)
    (vis : List String) (fn : PlannerState → NodeResult)
    (router : PlannerState → List Send) (join : String)
    (h1 : resolve g current = some fn)
    (h2 : outEdge g current = some (EdgeDef.fanout router join)) :
    runStep g cont current s iter flag vis
      = cont join (fanoutExec g (router (applyNode fn s)) (applyNode fn s))
          (iter + 1) flag
          ((vis ++ [current]) ++ (router (applyNode fn s)).map (fun sd => sd.node)) := by
  simp only [runStep, h1, h2]

theorem runAux_end (g : Graph) (fuel : Nat) (s : PlannerState) (iter : Nat)
    (flag : Bool) (vis : List String) :
    runAux g (fuel + 1) endMark s iter flag vis = RunResult.success s vis := by
  simp [runAux]

theorem runAux_go (g : Graph) (fuel : Nat) (current : String) (s : PlannerState)
    (iter : Nat) (flag : Bool) (vis : List String)
    (hf : fuel ≠ 0) (h1 : current ≠ endMark) (h2 : iter ≤ g.ceiling) :
    runAux g fuel current s iter flag vis
      = runStep g (runAux g (fuel - 1)) current s iter flag vis := by
  cases fuel with
  | zero => exact absurd rfl hf
  | succ n =>
      simp only [runAux, Nat.add_sub_cancel]
      rw [if_neg h1, if_neg (show ¬g.ceiling < iter by omega)]

/-! ## Termination of the executor -/

theorem runStep_ne_outOfFuel (g : Graph)
    (cont : String → PlannerState → Nat → Bool → List String → RunResult)
    (current : String) (s : PlannerState) (iter : Nat) (flag : Bool)
    (visited : List String)
    (hc : ∀ t s2 vis, cont t s2 (iter + 1) flag vis ≠ RunResult.outOfFuel) :
    runStep g cont current s iter flag visited ≠ RunResult.outOfFuel := by
  unfold runStep
  repeat' split
  all_goals first
    | exact hc _ _ _
    | simp

theorem runAux_ne_outOfFuel (g : Graph) :
    ∀ fuel iter flag (current : String) (s : PlannerState) (visited : List String),
      (flag = false → iter ≤ g.ceiling + 1 ∧ g.ceiling + 3 ≤ fuel + iter) →
      (flag = true → g.ceiling + 2 ≤ iter ∧ 1 ≤ fuel) →
      runAux g fuel current s iter flag visited ≠ RunResult.outOfFuel := by
  intro fuel
  induction fuel with
  | zero =>
      intro iter flag current s visited hF hT
      cases flag with
      | false => rcases hF rfl with ⟨h1, h2⟩; omega
      | true => rcases hT rfl with ⟨h1, h2⟩; omega
  | succ n ih =>
      intro iter flag current s visited hF hT
      by_cases hend : current = endMark
      · subst hend; rw [runAux_end]; simp
      · by_cases hlim : g.ceiling < iter
        · have heq : runAux g (n + 1) current s iter flag visited
              = limitStep g (runAux g n) s iter flag visited := by
            simp only [runAux, if_neg hend, if_pos hlim]
          rw [heq]
          unfold limitStep
          cases flag with
          | true => simp
          | false =>
              rcases hF rfl with ⟨hi1, hi2⟩
              cases hep : g.errorPath with
              | none => simp
              | some e =>
                  apply runStep_ne_outOfFuel
                  intro t s2 vis
                  apply ih
                  · intro h; exact absurd h (by simp)
                  · intro _; omega
        · have heq := runAux_go g (n + 1) current s iter flag visited
            (by omega) hend (by omega)
          rw [Nat.add_sub_cancel] at heq
          rw [heq]
          apply runStep_ne_outOfFuel
          intro t s2 vis
          apply ih
          · intro hfl
            rcases hF hfl with ⟨a, b⟩
            omega
          · intro hfl
            rcases hT hfl with ⟨a, b⟩
            omega

theorem run_ne_outOfFuel (g : Graph) (s : PlannerState) :
    run g s ≠ RunResult.outOfFuel := by
  unfold run
  apply runAux_ne_outOfFuel
  · intro _
    omega
  · intro h
    exact absurd h (by simp)

theorem runStep_resolve_none (g : Graph)
    (cont : String → PlannerState → Nat → Bool → List String → RunResult)
    (current : String) (s : PlannerState) (iter : Nat) (flag : Bool)
    (vis : List String) (h : resolve g current = none) :
    runStep g cont current s iter flag vis
      = RunResult.fatal ("未註冊的節點: " ++ current) (vis ++ [current]) := by
  simp only [runStep, h]

/-! ## Field behavior of the node functions -/

@[simp]
theorem ovr_none_simp {α : Type} (v : α) : ovr none v = v := rfl

@[simp]
theorem ovrO_none_simp {α : Type} (v : Option α) : ovrO none v = v := rfl

@[simp]
theorem analyze_goal_iteration_count (now : String) (s : PlannerState) :
    (analyze_goal now s).iteration_count = none := by
  unfold analyze_goal; split <;> rfl

@[simp]
theorem analyze_goal_config (now : String) (s : PlannerState) :
    (analyze_goal now s).config = none := by
  unfold analyze_goal; split <;> rfl

@[simp]
theorem breakdown_tasks_iteration_count (now : String) (s : PlannerState) :
    (breakdown_tasks now s).iteration_count = none := by
  unfold breakdown_tasks; split <;> rfl

@[simp]
theorem breakdown_tasks_config (now : String) (s : PlannerState) :
    (breakdown_tasks now s).config = none := by
  unfold breakdown_tasks; split <;> rfl

@[simp]
theorem evaluate_tasks_iteration_count (now : String) (s : PlannerState) :
    (evaluate_tasks now s).iteration_count = none := by
  unfold evaluate_tasks; split <;> rfl

@[simp]
theorem evaluate_tasks_config (now : String) (s : PlannerState) :
    (evaluate_tasks now s).config = none := by
  unfold evaluate_tasks; split <;> rfl

@[simp]
theorem create_plan_iteration_count (now : String) (s : PlannerState) :
    (create_plan now s).iteration_count = none := by
  unfold create_plan; repeat' split
  all_goals rfl

@[simp]
theorem create_plan_config (now : String) (s : PlannerState) :
    (create_plan now s).config = none := by
  unfold create_plan; repeat' split
  all_goals rfl

@[simp]
theorem get_feedback_iteration_count (sim : PlannerState → PlanFeedback)
    (now : String) (s : PlannerState) :
    (get_feedback sim now s).iteration_count = none := by
  unfold get_feedback; split <;> rfl

@[simp]
theorem get_feedback_config (sim : PlannerState → PlanFeedback)
    (now : String) (s : PlannerState) :
    (get_feedback sim now s).config = none := by
  unfold get_feedback; split <;> rfl

@[simp]
theorem refine_plan_iteration_count (now : String) (s : PlannerState) :
    (refine_plan now s).iteration_count = some (s.iteration_count + 1) := rfl

@[simp]
theorem refine_plan_config (now : String) (s : PlannerState) :
    (refine_plan now s).config = none := rfl

@[simp]
theorem finalize_plan_iteration_count (now : String) (s : PlannerState) :
    (_finalize_plan now s).iteration_count = none := rfl

@[simp]
theorem finalize_plan_config (now : String) (s : PlannerState) :
    (_finalize_plan now s).config = none := rfl

@[simp]
theorem handle_errors_iteration_count (now : String) (s : PlannerState) :
    (_handle_errors now s).iteration_count = none := rfl

@[simp]
theorem handle_errors_config (now : String) (s : PlannerState) :
    (_handle_errors now s).config = none := rfl

@[simp]
theorem monitor_state_iteration_count (now : String) (s : PlannerState) :
    (_monitor_state now s).iteration_count = none := rfl

@[simp]
theorem monitor_state_config (now : String) (s : PlannerState) :
    (_monitor_state now s).config = none := rfl

@[simp]
theorem errUpd_iteration_count (s : PlannerState) (msg : String) :
    (errUpd s msg).iteration_count = none := rfl

@[simp]
theorem errUpd_config (s : PlannerState) (msg : String) :
    (errUpd s msg).config = none := rfl

/-! ## Router range lemmas for the standard planner graph -/

theorem should_get_feedback_cases (s : PlannerState) :
    should_get_feedback s = "finalize" ∨ should_get_feedback s = "get_feedback" := by
  unfold should_get_feedback
  repeat' split
  all_goals simp

theorem should_refine_plan_cases (s : PlannerState) :
    should_refine_plan s = "finalize" ∨ should_refine_plan s = "refine_plan" := by
  unfold should_refine_plan
  repeat' split
  all_goals simp

theorem should_refine_plan_lt (s : PlannerState)
    (h : should_refine_plan s = "refine_plan") :
    s.iteration_count < (s.config.getD {}).max_iterations := by
  unfold should_refine_plan at h
  split at h
  · exact absurd h (by simp)
  · split at h
    · exact absurd h (by simp)
    · split at h
      · exact absurd h (by simp)
      · omega

@[simp]
theorem ovr_some_simp {α : Type} (u v : α) : ovr (some u) v = u := rfl

@[simp]
theorem ovrO_some_simp {α : Type} (u : α) (v : Option α) : ovrO (some u) v = some u := rfl

theorem applyNode_preserves (f : PlannerState → Update) (s : PlannerState)
    (cfg : PlannerConfig)
    (hc : (f s).config = none) (hi : (f s).iteration_count = none)
    (h1 : s.config = some cfg) (h2 : s.iteration_count ≤ cfg.max_iterations) :
    (applyNode (fun x => NodeResult.ok (f x)) s).config = some cfg ∧
      (applyNode (fun x => NodeResult.ok (f x)) s).iteration_count ≤ cfg.max_iterations := by
  rw [applyNode_ok]
  constructor
  · simp [hc, h1]
  · simp [hi, h2]

theorem planner_resolve_none (sim : PlannerState → PlanFeedback) (now current : String)
    (h1 : current ≠ "analyze_goal") (h2 : current ≠ "breakdown_tasks")
    (h3 : current ≠ "evaluate_tasks") (h4 : current ≠ "create_plan")
    (h5 : current ≠ "get_feedback") (h6 : current ≠ "refine_plan")
    (h7 : current ≠ "finalize") (h8 : current ≠ "error_handler") :
    resolve (create_planner_graph sim now) current = none := by
  simp [resolve, create_planner_graph, create_planner_graph_r, plannerNodes, alookup,
    Ne.symm h1, Ne.symm h2, Ne.symm h3, Ne.symm h4, Ne.symm h5, Ne.symm h6,
    Ne.symm h7, Ne.symm h8]


theorem planner_count_invariant (sim : PlannerState → PlanFeedback) (now : String)
    (cfg : PlannerConfig) :
    ∀ fuel (current : String) (s : PlannerState) (iter : Nat) (flag : Bool)
      (visited : List String),
      s.config = some cfg →
      s.iteration_count ≤ cfg.max_iterations →
      (current = "refine_plan" → s.iteration_count < cfg.max_iterations) →
      countOK cfg (runAux (create_planner_graph sim now) fuel current s iter flag visited) := by
  intro fuel
  induction fuel with
  | zero =>
      intro current s iter flag visited _ _ _
      exact trivial
  | succ n ih =>
      intro current s iter flag visited hcfg hle hcur
      by_cases hend : current = endMark
      · subst hend
        rw [runAux_end]
        exact hle
      · by_cases hlim : (create_planner_graph sim now).ceiling < iter
        · have heq : runAux (create_planner_graph sim now) (n + 1) current s iter flag visited
              = limitStep (create_planner_graph sim now)
                  (runAux (create_planner_graph sim now) n) s iter flag visited := by
            simp only [runAux, if_neg hend, if_pos hlim]
          rw [heq]
          unfold limitStep
          rw [show (create_planner_graph sim now).errorPath = some "error_handler" from rfl]
          cases flag with
          | true => exact trivial
          | false =>
              show countOK cfg (runStep (create_planner_graph sim now)
                (runAux (create_planner_graph sim now) n) "error_handler" s iter true visited)
              rw [runStep_resolve_uncond (create_planner_graph sim now)
                (runAux (create_planner_graph sim now) n) "error_handler" s iter true visited
                (fun x => NodeResult.ok (_handle_errors now x)) endMark rfl rfl]
              obtain ⟨pc, pi⟩ :=
                applyNode_preserves (_handle_errors now) s cfg (by simp) (by simp) hcfg hle
              exact ih _ _ _ _ _ pc pi (fun h => absurd h (by decide))
        · have heq := runAux_go (create_planner_graph sim now) (n + 1) current s iter
            flag visited (by omega) hend (by omega)
          rw [Nat.add_sub_cancel] at heq
          rw [heq]
          by_cases h1 : current = "analyze_goal"
          · subst h1
            rw [runStep_resolve_uncond (create_planner_graph sim now)
              (runAux (create_planner_graph sim now) n) "analyze_goal" s iter flag visited
              (fun x => NodeResult.ok (analyze_goal now x)) "breakdown_tasks" rfl rfl]
            obtain ⟨pc, pi⟩ :=
              applyNode_preserves (analyze_goal now) s cfg (by simp) (by simp) hcfg hle
            exact ih _ _ _ _ _ pc pi (fun h => absurd h (by decide))
          · by_cases h2 : current = "breakdown_tasks"
            · subst h2
              rw [runStep_resolve_uncond (create_planner_graph sim now)
                (runAux (create_planner_graph sim now) n) "breakdown_tasks" s iter flag visited
                (fun x => NodeResult.ok (breakdown_tasks now x)) "evaluate_tasks" rfl rfl]
              obtain ⟨pc, pi⟩ :=
                applyNode_preserves (breakdown_tasks now) s cfg (by simp) (by simp) hcfg hle
              exact ih _ _ _ _ _ pc pi (fun h => absurd h (by decide))
            · by_cases h3 : current = "evaluate_tasks"
              · subst h3
                rw [runStep_resolve_uncond (create_planner_graph sim now)
                  (runAux (create_planner_graph sim now) n) "evaluate_tasks" s iter flag visited
                  (fun x => NodeResult.ok (evaluate_tasks now x)) "create_plan" rfl rfl]
                obtain ⟨pc, pi⟩ :=
                  applyNode_preserves (evaluate_tasks now) s cfg (by simp) (by simp) hcfg hle
                exact ih _ _ _ _ _ pc pi (fun h => absurd h (by decide))
              · by_cases h4 : current = "create_plan"
                · subst h4
                  obtain ⟨pc, pi⟩ :=
                    applyNode_preserves (create_plan now) s cfg (by simp) (by simp) hcfg hle
                  rcases should_get_feedback_cases
                      (applyNode (fun x => NodeResult.ok (create_plan now x)) s) with hr | hr
                  · rw [runStep_resolve_cond (create_planner_graph sim now)
                      (runAux (create_planner_graph sim now) n) "create_plan" s iter flag visited
                      (fun x => NodeResult.ok (create_plan now x))
                      should_get_feedback should_get_feedback_map "finalize" rfl rfl
                      (by rw [hr]; rfl)]
                    exact ih _ _ _ _ _ pc pi (fun h => absurd h (by decide))
                  · rw [runStep_resolve_cond (create_planner_graph sim now)
                      (runAux (create_planner_graph sim now) n) "create_plan" s iter flag visited
                      (fun x => NodeResult.ok (create_plan now x))
                      should_get_feedback should_get_feedback_map "get_feedback" rfl rfl
                      (by rw [hr]; rfl)]
                    exact ih _ _ _ _ _ pc pi (fun h => absurd h (by decide))
                · by_cases h5 : current = "get_feedback"
                  · subst h5
                    obtain ⟨pc, pi⟩ :=
                      applyNode_preserves (get_feedback sim now) s cfg (by simp) (by simp)
                        hcfg hle
                    rcases should_refine_plan_cases
                        (applyNode (fun x => NodeResult.ok (get_feedback sim now x)) s)
                        with hr | hr
                    · rw [runStep_resolve_cond (create_planner_graph sim now)
                        (runAux (create_planner_graph sim now) n) "get_feedback" s iter flag
                        visited (fun x => NodeResult.ok (get_feedback sim now x))
                        should_refine_plan should_refine_plan_map "finalize" rfl rfl
                        (by rw [hr]; rfl)]
                      exact ih _ _ _ _ _ pc pi (fun h => absurd h (by decide))
                    · rw [runStep_resolve_cond (create_planner_graph sim now)
                        (runAux (create_planner_graph sim now) n) "get_feedback" s iter flag
                        visited (fun x => NodeResult.ok (get_feedback sim now x))
                        should_refine_plan should_refine_plan_map "refine_plan" rfl rfl
                        (by rw [hr]; rfl)]
                      refine ih _ _ _ _ _ pc pi ?_
                      intro _
                      have hlt := should_refine_plan_lt _ hr
                      rw [pc] at hlt
                      simpa using hlt
                  · by_cases h6 : current = "refine_plan"
                    · subst h6
                      have hstrict := hcur rfl
                      have pc : (applyNode (fun x => NodeResult.ok (refine_plan now x))
                          s).config = some cfg := by
                        rw [applyNode_ok]; simp [hcfg]
                      have pi : (applyNode (fun x => NodeResult.ok (refine_plan now x))
                          s).iteration_count ≤ cfg.max_iterations := by
                        rw [applyNode_ok]; simp; omega
                      rcases should_refine_plan_cases
                          (applyNode (fun x => NodeResult.ok (refine_plan now x)) s)
                          with hr | hr
                      · rw [runStep_resolve_cond (create_planner_graph sim now)
                          (runAux (create_planner_graph sim now) n) "refine_plan" s iter flag
                          visited (fun x => NodeResult.ok (refine_plan now x))
                          should_refine_plan refine_loop_map "finalize" rfl rfl
                          (by rw [hr]; rfl)]
                        exact ih _ _ _ _ _ pc pi (fun h => absurd h (by decide))
                      · rw [runStep_resolve_cond (create_planner_graph sim now)
                          (runAux (create_planner_graph sim now) n) "refine_plan" s iter flag
                          visited (fun x => NodeResult.ok (refine_plan now x))
                          should_refine_plan refine_loop_map "get_feedback" rfl rfl
                          (by rw [hr]; rfl)]
                        exact ih _ _ _ _ _ pc pi (fun h => absurd h (by decide))
                    · by_cases h7 : current = "finalize"
                      · subst h7
                        rw [runStep_resolve_uncond (create_planner_graph sim now)
                          (runAux (create_planner_graph sim now) n) "finalize" s iter flag
                          visited (fun x => NodeResult.ok (_finalize_plan now x)) endMark
                          rfl rfl]
                        obtain ⟨pc, pi⟩ :=
                          applyNode_preserves (_finalize_plan now) s cfg (by simp) (by simp)
                            hcfg hle
                        exact ih _ _ _ _ _ pc pi (fun h => absurd h (by decide))
                      · by_cases h8 : current = "error_handler"
                        · subst h8
                          rw [runStep_resolve_uncond (create_planner_graph sim now)
                            (runAux (create_planner_graph sim now) n) "error_handler" s iter
                            flag visited (fun x => NodeResult.ok (_handle_errors now x))
                            endMark rfl rfl]
                          obtain ⟨pc, pi⟩ :=
                            applyNode_preserves (_handle_errors now) s cfg (by simp) (by simp)
                              hcfg hle
                          exact ih _ _ _ _ _ pc pi (fun h => absurd h (by decide))
                        · rw [runStep_resolve_none (create_planner_graph sim now)
                            (runAux (create_planner_graph sim now) n) current s iter flag
                            visited (planner_resolve_none sim now current h1 h2 h3 h4 h5 h6
                              h7 h8)]
                          exact trivial

/-! ## Claim theorems -/

/-- C1: Every run of the executor terminates — for every compiled graph
(arbitrary node functions and routers, cycles included) the executor completes
within the fuel budget `ceiling + 3` derived from the configured iteration
ceiling; and on the compiled standard planner graph, for every initial state
that carries a configuration and starts within the bound, the
`iteration_count` recorded in the final state (success or error termination)
never exceeds `config.max_iterations`. -/
theorem c1_run_terminates_and_iteration_bounded :
    (∀ (g : Graph) (s : PlannerState), run g s ≠ RunResult.outOfFuel) ∧
    (∀ (sim : PlannerState → PlanFeedback) (now : String) (cfg : PlannerConfig)
        (s0 : PlannerState),
        s0.config = some cfg →
        s0.iteration_count ≤ cfg.max_iterations →
        countOK cfg (run (create_planner_graph sim now) s0)) := by
  constructor
  · exact run_ne_outOfFuel
  · intro sim now cfg s0 h1 h2
    unfold run
    exact planner_count_invariant sim now cfg _ _ _ _ _ _ h1 h2
      (fun h => absurd (show ("analyze_goal" : String) = "refine_plan" from h) (by decide))

/-- Witness for C1 at a concrete planner run: an always-approving feedback
source, the default configuration, and a fresh initial state. -/
theorem c1_run_terminates_and_iteration_bounded_witness :
    run (create_planner_graph (fun _ => { approval_status := true }) "t")
        (create_initial_state "學習Python" (some {})) ≠ RunResult.outOfFuel ∧
    countOK {} (run (create_planner_graph (fun _ => { approval_status := true }) "t")
        (create_initial_state "學習Python" (some {}))) :=
  ⟨c1_run_terminates_and_iteration_bounded.1 _ _,
   c1_run_terminates_and_iteration_bounded.2 (fun _ => { approval_status := true }) "t" {}
     (create_initial_state "學習Python" (some {})) rfl (by decide)⟩

/-! ## Dictionary-merge lemmas -/

theorem alookup_append {α : Type} (l1 l2 : List (String × α)) (k : String) :
    alookup (l1 ++ l2) k
      = match alookup l1 k with
        | some v => some v
        | none => alookup l2 k := by
  induction l1 with
  | nil => simp [alookup]
  | cons kv rest ih =>
      by_cases h : kv.1 = k
      · simp [alookup, h]
      · simp [alookup, h, ih]

theorem alookup_mapped {α : Type} (s p : List (String × α)) (k : String) :
    alookup (s.map (fun kv =>
        match alookup p kv.1 with
        | some v => (kv.1, v)
        | none => kv)) k
      = match alookup s k with
        | none => none
        | some w =>
            match alookup p k with
            | some v => some v
            | none => some w := by
  induction s with
  | nil => simp [alookup]
  | cons kv rest ih =>
      by_cases h : kv.1 = k
      · cases hp : alookup p kv.1 with
        | some v => simp [alookup, h, hp, h ▸ hp]
        | none => simp [alookup, h, hp, h ▸ hp]
      · cases hp : alookup p kv.1 with
        | some v => simp [alookup, h, hp, ih]
        | none => simp [alookup, h, hp, ih]

theorem alookup_filtered {α : Type} (s p : List (String × α)) (k : String) :
    alookup (p.filter (fun kv => (alookup s kv.1).isNone)) k
      = if (alookup s k).isNone then alookup p k else none := by
  induction p with
  | nil => simp [alookup]
  | cons kv rest ih =>
      rw [List.filter_cons]
      by_cases h : kv.1 = k
      · by_cases hs : (alookup s kv.1).isNone
        · rw [if_pos (by simpa using hs)]
          simp [alookup, h, h ▸ hs]
        · rw [if_neg (by simpa using hs)]
          rw [ih]
          have hs' : ¬(alookup s k).isNone := h ▸ hs
          simp [hs']
      · by_cases hs : (alookup s kv.1).isNone
        · rw [if_pos (by simpa using hs)]
          simp [alookup, h, ih]
        · rw [if_neg (by simpa using hs)]
          rw [ih]
          simp [alookup, h]

theorem dictMerge_nil {α : Type} (s : List (String × α)) : dictMerge s [] = s := by
  unfold dictMerge
  simp [alookup]

/-- C2: the `{**s, **p}` merge semantics — every key of the partial update `p`
reads back with `p`'s value, every key absent from `p` reads back with the
state's value (so keys of `s` are never removed), and merging the empty
partial update is the identity, hence
`merge (merge s p1) {} = merge s p1`. -/
theorem c2_merge_override_preserve_identity :
    (∀ {α : Type} (s p : List (String × α)) (k : String) (v : α),
        alookup p k = some v → alookup (dictMerge s p) k = some v) ∧
    (∀ {α : Type} (s p : List (String × α)) (k : String),
        alookup p k = none → alookup (dictMerge s p) k = alookup s k) ∧
    (∀ {α : Type} (s p : List (String × α)) (k : String),
        alookup s k ≠ none → alookup (dictMerge s p) k ≠ none) ∧
    (∀ {α : Type} (s p1 : List (String × α)),
        dictMerge (dictMerge s p1) [] = dictMerge s p1) := by
  refine ⟨?_, ?_, ?_, ?_⟩
  · intro α s p k v hv
    unfold dictMerge
    rw [alookup_append, alookup_mapped, alookup_filtered]
    cases hs : alookup s k <;> simp [hv]
  · intro α s p k hv
    unfold dictMerge
    rw [alookup_append, alookup_mapped, alookup_filtered]
    cases hs : alookup s k <;> simp [hv]
  · intro α s p k hs
    obtain ⟨w, hw⟩ := Option.ne_none_iff_exists'.mp hs
    unfold dictMerge
    rw [alookup_append, alookup_mapped, alookup_filtered, hw]
    cases hp : alookup p k <;> simp
  · intro α s p1
    exact dictMerge_nil _

/-- Witness for C2 at concrete one-entry dictionaries over natural-number
values. -/
theorem c2_merge_override_preserve_identity_witness :
    alookup (dictMerge [("a", 1)] [("b", 2)]) "b" = some 2 ∧
    alookup (dictMerge [("a", 1)] [("b", 2)]) "a" = alookup [("a", 1)] "a" ∧
    alookup (dictMerge [("a", 1)] [("b", 2)]) "a" ≠ none :=
  ⟨c2_merge_override_preserve_identity.1 [("a", 1)] [("b", 2)] "b" 2 (by decide),
   c2_merge_override_preserve_identity.2.1 [("a", 1)] [("b", 2)] "a" (by decide),
   c2_merge_override_preserve_identity.2.2.1 [("a", 1)] [("b", 2)] "a" (by decide)⟩

/-! ## Partial-failure scenarios -/

@[simp]
theorem handle_errors_errors (now : String) (s : PlannerState) :
    (_handle_errors now s).errors = none := rfl

theorem runAux_reach_end (g : Graph) (fuel : Nat) (s : PlannerState) (iter : Nat)
    (flag : Bool) (vis : List String) (hf : fuel ≠ 0) :
    runAux g fuel endMark s iter flag vis = RunResult.success s vis := by
  cases fuel with
  | zero => exact absurd rfl hf
  | succ n => exact runAux_end g n s iter flag vis

/-- C3: partial-failure containment — a faulting node function does not raise:
with a declared error route the run returns normally (success) with the fault
recorded in a non-empty `errors` field, having visited the fault node and the
error handler; with no error-handling route declared the run aborts
(`Terminated-error`) rather than completing, still carrying the recorded
fault. -/
theorem c3_fault_recorded_error_route_decides :
    (∀ s0 : PlannerState, ∃ s1 : PlannerState,
        run error_route_graph s0 = RunResult.success s1 ["A", "error_handler"] ∧
        s1.errors ≠ []) ∧
    (∀ s0 : PlannerState, ∃ s1 : PlannerState,
        run no_error_route_graph s0 = RunResult.errorTerm s1 ["A"] ∧
        s1.errors ≠ []) := by
  constructor
  · intro s0
    have herr : (applyNode faultingNode s0).errors = s0.errors ++ ["節點故障"] := by
      rw [show applyNode faultingNode s0 = mergeSt s0 (errUpd s0 "節點故障") from rfl]
      simp [errUpd]
    have hroute : has_errors (applyNode faultingNode s0) = "error_handler" := by
      unfold has_errors
      rw [herr, if_neg (by simp)]
    have h3 : alookup [("error_handler", "error_handler"), ("continue", "B")]
        (has_errors (applyNode faultingNode s0)) = some "error_handler" := by
      rw [hroute]; rfl
    unfold run
    rw [show error_route_graph.ceiling + 3 = 13 from rfl,
      show error_route_graph.entry = "A" from rfl]
    rw [runAux_go error_route_graph 13 "A" s0 0 false [] (by decide) (by decide) (by decide)]
    rw [show (13 : Nat) - 1 = 12 from rfl]
    rw [runStep_resolve_cond error_route_graph (runAux error_route_graph 12) "A" s0 0 false []
      faultingNode has_errors [("error_handler", "error_handler"), ("continue", "B")]
      "error_handler" rfl rfl h3]
    rw [runAux_go error_route_graph 12 "error_handler" (applyNode faultingNode s0) 1 false
      ([] ++ ["A"]) (by decide) (by decide) (by decide)]
    rw [show (12 : Nat) - 1 = 11 from rfl]
    rw [runStep_resolve_uncond error_route_graph (runAux error_route_graph 11) "error_handler"
      (applyNode faultingNode s0) 1 false ([] ++ ["A"])
      (fun x => NodeResult.ok (_handle_errors "t" x)) endMark rfl rfl]
    rw [runAux_reach_end error_route_graph 11 _ 2 false _ (by decide)]
    refine ⟨_, rfl, ?_⟩
    rw [applyNode_ok]
    simp [herr]
  · intro s0
    have herr : (applyNode faultingNode s0).errors = s0.errors ++ ["節點故障"] := by
      rw [show applyNode faultingNode s0 = mergeSt s0 (errUpd s0 "節點故障") from rfl]
      simp [errUpd]
    have hroute : has_errors (applyNode faultingNode s0) = "error_handler" := by
      unfold has_errors
      rw [herr, if_neg (by simp)]
    have h3 : alookup [("continue", "B")]
        (has_errors (applyNode faultingNode s0)) = none := by
      rw [hroute]; rfl
    unfold run
    rw [show no_error_route_graph.ceiling + 3 = 13 from rfl,
      show no_error_route_graph.entry = "A" from rfl]
    rw [runAux_go no_error_route_graph 13 "A" s0 0 false [] (by decide) (by decide) (by decide)]
    rw [show (13 : Nat) - 1 = 12 from rfl]
    rw [runStep_cond_unmapped_noPath no_error_route_graph (runAux no_error_route_graph 12)
      "A" s0 0 false [] faultingNode has_errors [("continue", "B")] rfl rfl h3 rfl]
    refine ⟨_, rfl, ?_⟩
    simp [errUpd, herr]

/-- C4: compile validation is collect-all — whenever any structural defect
exists, `compile` fails with one error value listing every defect found; in
particular a graph with both a duplicate node name and an edge to an
unregistered node reports both defects in that single error. -/
theorem c4_compile_collects_all_defects :
    (∀ b : BuilderSpec, collect_defects b ≠ [] →
        compile_builder b = Except.error (collect_defects b)) ∧
    (∀ (b : BuilderSpec) (d1 d2 : String),
        d1 ∈ duplicate_defects b.nodes → d2 ∈ dangling_defects b →
        ∃ l, compile_builder b = Except.error l ∧ d1 ∈ l ∧ d2 ∈ l) := by
  constructor
  · intro b hne
    unfold compile_builder
    rw [if_neg hne]
  · intro b d1 d2 h1 h2
    have hmem1 : d1 ∈ collect_defects b :=
      List.mem_append_left _ (List.mem_append_left _ h1)
    have hmem2 : d2 ∈ collect_defects b := List.mem_append_right _ h2
    refine ⟨collect_defects b, ?_, hmem1, hmem2⟩
    unfold compile_builder
    rw [if_neg (List.ne_nil_of_mem hmem1)]

/-- Witness for C4 at a concrete builder with a duplicated node name and a
dangling edge target. -/
theorem c4_compile_collects_all_defects_witness :
    ∃ l, compile_builder { nodes := ["A", "A", "B"], edges := [("B", "C")], entry := "A" }
        = Except.error l ∧
      "duplicate node name: A" ∈ l ∧ "edge target not registered: C" ∈ l :=
  c4_compile_collects_all_defects.2
    { nodes := ["A", "A", "B"], edges := [("B", "C")], entry := "A" }
    "duplicate node name: A" "edge target not registered: C" (by decide) (by decide)

/-- C5: with the router at `create_plan` returning `finalize` on every
invocation, a run of the planner graph visits exactly the linear phase and the
finalize node — `get_feedback` and `refine_plan` (the nodes reachable only
through the other label) are never visited. -/
theorem c5_constant_router_never_visits_other_branch :
    ∀ (r1 r2 : PlannerState → String) (sim : PlannerState → PlanFeedback) (now : String),
      (∀ s, r1 s = "finalize") →
      ∀ s0 : PlannerState, ∃ (s1 : PlannerState) (vis : List String),
        run (create_planner_graph_r r1 r2 sim now) s0 = RunResult.success s1 vis ∧
        vis = ["analyze_goal", "breakdown_tasks", "evaluate_tasks", "create_plan",
               "finalize"] ∧
        "get_feedback" ∉ vis ∧ "refine_plan" ∉ vis := by
  intro r1 r2 sim now hr s0
  have h3 : alookup should_get_feedback_map
      (r1 (applyNode (fun x => NodeResult.ok (create_plan now x))
        (applyNode (fun x => NodeResult.ok (evaluate_tasks now x))
          (applyNode (fun x => NodeResult.ok (breakdown_tasks now x))
            (applyNode (fun x => NodeResult.ok (analyze_goal now x)) s0)))))
      = some "finalize" := by
    rw [hr]; rfl
  unfold run
  rw [show (create_planner_graph_r r1 r2 sim now).ceiling + 3 = 28 from rfl,
    show (create_planner_graph_r r1 r2 sim now).entry = "analyze_goal" from rfl]
  rw [runAux_go (create_planner_graph_r r1 r2 sim now) 28 "analyze_goal" s0 0 false []
    (by decide) (by decide) (by simp [create_planner_graph_r])]
  rw [show (28 : Nat) - 1 = 27 from rfl]
  rw [runStep_resolve_uncond (create_planner_graph_r r1 r2 sim now)
    (runAux (create_planner_graph_r r1 r2 sim now) 27) "analyze_goal" s0 0 false []
    (fun x => NodeResult.ok (analyze_goal now x)) "breakdown_tasks" rfl rfl]
  rw [runAux_go (create_planner_graph_r r1 r2 sim now) 27 "breakdown_tasks" _ 1 false _
    (by decide) (by decide) (by simp [create_planner_graph_r])]
  rw [show (27 : Nat) - 1 = 26 from rfl]
  rw [runStep_resolve_uncond (create_planner_graph_r r1 r2 sim now)
    (runAux (create_planner_graph_r r1 r2 sim now) 26) "breakdown_tasks" _ 1 false _
    (fun x => NodeResult.ok (breakdown_tasks now x)) "evaluate_tasks" rfl rfl]
  rw [runAux_go (create_planner_graph_r r1 r2 sim now) 26 "evaluate_tasks" _ 2 false _
    (by decide) (by decide) (by simp [create_planner_graph_r])]
  rw [show (26 : Nat) - 1 = 25 from rfl]
  rw [runStep_resolve_uncond (create_planner_graph_r r1 r2 sim now)
    (runAux (create_planner_graph_r r1 r2 sim now) 25) "evaluate_tasks" _ 2 false _
    (fun x => NodeResult.ok (evaluate_tasks now x)) "create_plan" rfl rfl]
  rw [runAux_go (create_planner_graph_r r1 r2 sim now) 25 "create_plan" _ 3 false _
    (by decide) (by decide) (by simp [create_planner_graph_r])]
  rw [show (25 : Nat) - 1 = 24 from rfl]
  rw [runStep_resolve_cond (create_planner_graph_r r1 r2 sim now)
    (runAux (create_planner_graph_r r1 r2 sim now) 24) "create_plan" _ 3 false _
    (fun x => NodeResult.ok (create_plan now x)) r1 should_get_feedback_map "finalize"
    rfl rfl h3]
  rw [runAux_go (create_planner_graph_r r1 r2 sim now) 24 "finalize" _ 4 false _
    (by decide) (by decide) (by simp [create_planner_graph_r])]
  rw [show (24 : Nat) - 1 = 23 from rfl]
  rw [runStep_resolve_uncond (create_planner_graph_r r1 r2 sim now)
    (runAux (create_planner_graph_r r1 r2 sim now) 23) "finalize" _ 4 false _
    (fun x => NodeResult.ok (_finalize_plan now x)) endMark rfl rfl]
  rw [runAux_reach_end (create_planner_graph_r r1 r2 sim now) 23 _ 5 false _ (by decide)]
  exact ⟨_, _, rfl, rfl, by decide, by decide⟩

/-- Witness for C5: a constantly-finalizing router on a fresh initial
state. -/
theorem c5_constant_router_never_visits_other_branch_witness :
    ∃ (s1 : PlannerState) (vis : List String),
      run (create_planner_graph_r (fun _ => "finalize") (fun _ => "finalize")
          (fun _ => { approval_status := true }) "t")
        (create_initial_state "學習" none) = RunResult.success s1 vis ∧
      vis = ["analyze_goal", "breakdown_tasks", "evaluate_tasks", "create_plan",
             "finalize"] ∧
      "get_feedback" ∉ vis ∧ "refine_plan" ∉ vis :=
  c5_constant_router_never_visits_other_branch (fun _ => "finalize") (fun _ => "finalize")
    (fun _ => { approval_status := true }) "t" (fun _ => rfl)
    (create_initial_state "學習" none)

/-- C6: fan-out dispatch is deterministic — `_distribute_parallel_tasks`
returns, for every state, the same two dispatches (`risk_assessment` then
`resource_check`, in that fixed order), and the fan-out step of the advanced
graph merges the two branch outputs into the shared state in exactly that
order (risk first, resource second, later merge winning on conflicts), so
equal initial states produce identical merged states at the join. -/
theorem c6_fanout_dispatch_deterministic :
    (∀ s : PlannerState, _distribute_parallel_tasks s
        = [{ node := "risk_assessment", arg := { task_type := some "risk" } },
           { node := "resource_check", arg := { task_type := some "resource" } }]) ∧
    (∀ (sim : PlannerState → PlanFeedback) (now : String) (s : PlannerState),
        fanoutExec (create_advanced_planner_graph sim now) (_distribute_parallel_tasks s) s
          = mergeSt (mergeSt s (_assess_risks (mergeSt s { task_type := some "risk" })))
              (_check_resources (mergeSt s { task_type := some "resource" }))) := by
  constructor
  · intro s
    rfl
  · intro sim now s
    rfl

/-- C7: the three routers of the advanced graph are total with respect to
their declared label maps — every value they can return is one of the declared
labels and is a key of the label map they are registered with in
`create_advanced_planner_graph`, so the runtime unmapped-label branch cannot
be taken from these edges. -/
theorem c7_routers_total_over_registered_label_maps :
    (∀ s : PlannerState,
        (_check_iteration_limit s ∈ (["continue", "force_finalize", "error"] : List String) ∧
          (alookup check_iteration_limit_map (_check_iteration_limit s)).isSome = true) ∧
        (_advanced_feedback_logic s
            ∈ (["auto_approve", "get_feedback", "need_revision"] : List String) ∧
          (alookup advanced_feedback_map (_advanced_feedback_logic s)).isSome = true) ∧
        (_error_recovery_logic s
            ∈ (["retry", "partial_recovery", "terminate"] : List String) ∧
          (alookup error_recovery_map (_error_recovery_logic s)).isSome = true)) ∧
    (∀ (sim : PlannerState → PlanFeedback) (now : String),
        outEdge (create_advanced_planner_graph sim now) "state_monitor"
          = some (EdgeDef.cond _check_iteration_limit check_iteration_limit_map) ∧
        outEdge (create_advanced_planner_graph sim now) "create_plan"
          = some (EdgeDef.cond _advanced_feedback_logic advanced_feedback_map) ∧
        outEdge (create_advanced_planner_graph sim now) "error_handler"
          = some (EdgeDef.cond _error_recovery_logic error_recovery_map)) := by
  constructor
  · intro s
    refine ⟨⟨?_, ?_⟩, ⟨?_, ?_⟩, ⟨?_, ?_⟩⟩
    · unfold _check_iteration_limit
      repeat' split
      all_goals simp
    · unfold _check_iteration_limit
      repeat' split
      all_goals simp [check_iteration_limit_map, alookup]
    · unfold _advanced_feedback_logic
      repeat' split
      all_goals simp
    · unfold _advanced_feedback_logic
      repeat' split
      all_goals simp [advanced_feedback_map, alookup]
    · unfold _error_recovery_logic
      repeat' split
      all_goals simp
    · unfold _error_recovery_logic
      repeat' split
      all_goals simp [error_recovery_map, alookup]
  · intro sim now
    exact ⟨rfl, rfl, rfl⟩

/-- C8: `iteration_count` is never lowered — the helper nodes
`_finalize_plan`, `_handle_errors` and `_monitor_state` return updates with no
`iteration_count` key (so merging them leaves the count unchanged), and every
node registered in the standard planner graph produces an update whose merge
leaves the count greater than or equal to its previous value. -/
theorem c8_iteration_count_never_lowered :
    (∀ (now : String) (s : PlannerState),
        (_finalize_plan now s).iteration_count = none ∧
        (_handle_errors now s).iteration_count = none ∧
        (_monitor_state now s).iteration_count = none ∧
        (mergeSt s (_finalize_plan now s)).iteration_count = s.iteration_count ∧
        (mergeSt s (_handle_errors now s)).iteration_count = s.iteration_count ∧
        (mergeSt s (_monitor_state now s)).iteration_count = s.iteration_count) ∧
    (∀ (sim : PlannerState → PlanFeedback) (now : String) (name : String)
        (fn : PlannerState → NodeResult),
        (name, fn) ∈ plannerNodes sim now →
        ∀ (s : PlannerState) (u : Update), fn s = NodeResult.ok u →
        s.iteration_count ≤ (mergeSt s u).iteration_count) := by
  constructor
  · intro now s
    exact ⟨rfl, rfl, rfl, rfl, rfl, rfl⟩
  · intro sim now name fn hmem s u hu
    simp only [plannerNodes, List.mem_cons, List.not_mem_nil, or_false,
      Prod.mk.injEq] at hmem
    rcases hmem with ⟨_, rfl⟩ | ⟨_, rfl⟩ | ⟨_, rfl⟩ | ⟨_, rfl⟩ | ⟨_, rfl⟩ | ⟨_, rfl⟩ |
      ⟨_, rfl⟩ | ⟨_, rfl⟩
    all_goals injection hu with h
    all_goals subst h
    all_goals simp

/-- Witness for C8 at the goal-analysis node of the planner graph on a fresh
initial state. -/
theorem c8_iteration_count_never_lowered_witness :
    (create_initial_state "學習" none).iteration_count
      ≤ (mergeSt (create_initial_state "學習" none)
          (analyze_goal "t" (create_initial_state "學習" none))).iteration_count :=
  c8_iteration_count_never_lowered.2 (fun _ => { approval_status := true }) "t"
    "analyze_goal" (fun x => NodeResult.ok (analyze_goal "t" x))
    (List.mem_cons_self _ _) (create_initial_state "學習" none)
    (analyze_goal "t" (create_initial_state "學習" none)) rfl

/-- C9: the execution trace of a final state is one line naming the state's
current phase (`unknown` when the field is absent) followed by one line per
stored processing note, in stored order — its length is exactly
`1 + len(processing_notes)`; `get_execution_trace` is a pure reader of the
state. -/
theorem c9_execution_trace_shape :
    ∀ s : PlannerState,
      (get_execution_trace s).length = 1 + s.processing_notes.length ∧
      (get_execution_trace s).head?
        = some ("最終階段: " ++ s.current_phase.getD "unknown") ∧
      (get_execution_trace s).tail
        = s.processing_notes.map (fun note => "- " ++ note) := by
  intro s
  refine ⟨?_, rfl, rfl⟩
  simp [get_execution_trace]
  omega

/-- C10: `_finalize_plan` sets `is_plan_approved` to `True` for every input
state — the approval is unconditional, independent of how the run reached the
finalize node — and the merged `processing_notes` value is the input state's
notes with the final notes appended, the prior notes preserved as a
prefix. -/
theorem c10_finalize_unconditional_approval_appends_notes :
    ∀ (now : String) (s : PlannerState),
      (_finalize_plan now s).is_plan_approved = some true ∧
      (mergeSt s (_finalize_plan now s)).is_plan_approved = true ∧
      (mergeSt s (_finalize_plan now s)).processing_notes
        = s.processing_notes ++ _finalize_plan_notes s := by
  intro now s
  exact ⟨rfl, rfl, rfl⟩
